import Mathlib

/-!
Shallow embedding of the spotify-mcp credential store, remote operation
client and dispatch gateway (src/spotify-api.ts, src/tools.ts and the
server entry file), with theorems about the behaviour the specification
describes.  JavaScript numbers are modelled as rationals, the
module-level mutable state (accessToken and tokenExpiryTime) is passed
explicitly, and every remote fetch is answered by an oracle environment
while the calls made are recorded in a request trace.
-/

/-- JS String.prototype.padStart with a single pad character. -/
def padStart (n : Nat) (c : Char) (s : String) : String :=
  String.mk (List.replicate (n - s.length) c) ++ s

/-- Embedding of formatDuration (src/spotify-api.ts lines 9-14).
The JS remainder operator truncates toward zero, hence Int.tmod. -/
def formatDuration (ms : ℚ) : String :=
  let totalSeconds : ℤ := ⌊ms / 1000⌋
  let minutes : ℤ := ⌊(totalSeconds : ℚ) / 60⌋
  let seconds : ℤ := Int.tmod totalSeconds 60
  toString minutes ++ ":" ++ padStart 2 '0' (toString seconds)

/-- The formula of the specification for duration formatting, written from
its words: minutes are floor(ms/1000/60), seconds are floor(ms/1000) mod 60
zero-padded to two digits (floor truncation, no rounding).  Stated with
Nat.floor since the specification speaks of nonnegative millisecond
counts. -/
def formatDurationSpec (ms : ℚ) : String :=
  toString (⌊ms / 1000 / 60⌋₊) ++ ":" ++ padStart 2 '0' (toString (⌊ms / 1000⌋₊ % 60))

/-- The module-level mutable credential pair of src/spotify-api.ts
(accessToken, tokenExpiryTime), made explicit state. -/
structure CredState where
  accessToken : String
  tokenExpiryTime : ℚ
deriving Repr, DecidableEq

/-- An upstream fetch outcome: HTTP status, statusText and the text() body.
response.ok is true exactly for statuses 200-299. -/
structure FetchResponse where
  status : Nat
  statusText : String
  body : String
deriving Repr, DecidableEq

def FetchResponse.ok (r : FetchResponse) : Bool :=
  decide (200 ≤ r.status) && decide (r.status ≤ 299)

/-- One entry of the network-request trace: which upstream endpoint a
dispatched operation contacted, with the key query parameters it sent. -/
inductive Request where
  | token
  | search (q : String) (limit : ℚ)
  | recommendations (seedTracks seedArtists seedGenres : List String) (limit : ℚ)
  | me
  | createPlaylist (name description : String) (isPublic : Bool)
  | addTracks (playlistId : String) (uris : List String) (position : Option ℚ)
  | userPlaylists (limit offset : ℚ)
  | playlistMeta (playlistId : String)
  | playlistTracks (playlistId : String) (limit offset : ℚ)
deriving Repr, DecidableEq

/-- A track object as read out of the search / recommendations JSON. -/
structure Track where
  name : String
  artists : List String
  album : String
  duration_ms : ℚ
  uri : String
  id : String
  popularity : ℚ
deriving Repr, DecidableEq

/-- A playlist object as read out of the current-user playlists JSON. -/
structure PlaylistInfo where
  name : String
  description : String
  tracksTotal : ℚ
  isPublic : Bool
  id : String
  url : String
deriving Repr, DecidableEq

/-- One item of a playlist-tracks page.  The displayed added-at string is
the output of new Date(...).toLocaleString(), an environment-defined
rendering, so the oracle supplies the rendered string directly. -/
structure PlaylistItem where
  track : Track
  addedAtDisplay : String
deriving Repr, DecidableEq

/-- Oracle environment: the current clock value and the answer each
upstream endpoint would give during this call.  Payload fields are the
parsed JSON of the corresponding response body; a none payload models a
body whose expected data is missing or unparseable. -/
structure Env where
  now : ℚ
  tokenResp : FetchResponse
  tokenPayload : Option (String × ℚ)
  tokenParseErr : String
  searchResp : FetchResponse
  searchItems : Option (List Track)
  recsResp : FetchResponse
  recsTracks : Option (List Track)
  meResp : FetchResponse
  meId : String
  createResp : FetchResponse
  createdId : String
  createdUrl : String
  addResp : FetchResponse
  snapshotId : String
  playlistsResp : FetchResponse
  playlistsItems : Option (List PlaylistInfo)
  playlistsTotal : ℚ
  plMetaResp : FetchResponse
  plName : String
  plTotal : ℚ
  plTracksResp : FetchResponse
  plItems : Option (List PlaylistItem)
deriving Repr, DecidableEq

/-- The error message every remote operation builds on a non-2xx response
(the JS template repeated verbatim in each operation). -/
def apiErrMsg (r : FetchResponse) : String :=
  "Spotify API error: " ++ toString r.status ++ " " ++ r.statusText ++ "\n" ++ r.body

/-- The error message of a failed token exchange (non-2xx). -/
def tokenErrMsg (r : FetchResponse) : String :=
  "Failed to get access token: " ++ toString r.status ++ " " ++ r.statusText ++ "\n" ++ r.body

/-- Embedding of getAccessToken (src/spotify-api.ts lines 16-73).
The cached token is served when it is truthy (non-empty) and its expiry is
strictly in the future; otherwise one POST to the token endpoint is made,
a non-2xx response or an unparseable body raises, and on success the cache
is overwritten with the fresh token and an expiry 90 percent of the issued
lifetime from now. -/
def getAccessToken (env : Env) (st : CredState) :
    Except String String × CredState × List Request :=
  if st.accessToken ≠ "" ∧ env.now < st.tokenExpiryTime then
    (.ok st.accessToken, st, [])
  else if !env.tokenResp.ok then
    (.error (tokenErrMsg env.tokenResp), st, [.token])
  else
    match env.tokenPayload with
    | none => (.error env.tokenParseErr, st, [.token])
    | some (tok, expiresIn) =>
        (.ok tok,
         { accessToken := tok,
           tokenExpiryTime := env.now + expiresIn * 1000 * (9 / 10 : ℚ) },
         [.token])

/-- Rendering of one track entry of a search or recommendations result
list (the JS template literal, including its trailing newline and two
spaces). -/
def trackLine (index : Nat) (t : Track) : String :=
  toString (index + 1) ++ ". \"" ++ t.name ++ "\" by " ++
    String.intercalate ", " t.artists ++
    "\n   Album: " ++ t.album ++
    "\n   Duration: " ++ formatDuration t.duration_ms ++
    "\n   Spotify URI: " ++ t.uri ++
    "\n   Track ID: " ++ t.id ++
    "\n   Popularity: " ++ toString t.popularity ++ "/100\n  "

def renderTracks (items : List Track) : String :=
  String.intercalate "\n\n" (items.mapIdx trackLine)

/-- Embedding of searchTracks (src/spotify-api.ts lines 75-109).  The
limit sent upstream is Math.min(limit, 50); there is no lower clamp in the
source. -/
def searchTracks (query : String) (limit : ℚ) (env : Env) (st : CredState) :
    Except String String × CredState × List Request :=
  match getAccessToken env st with
  | (.error m, st2, reqs) => (.error m, st2, reqs)
  | (.ok _tok, st2, reqs) =>
    let reqs2 := reqs ++ [.search query (min limit 50)]
    if !env.searchResp.ok then
      (.error (apiErrMsg env.searchResp), st2, reqs2)
    else
      match env.searchItems with
      | none => (.ok "No tracks found matching your query.", st2, reqs2)
      | some [] => (.ok "No tracks found matching your query.", st2, reqs2)
      | some items =>
          (.ok ("Found " ++ toString items.length ++ " tracks matching \"" ++ query ++
                "\":\n\n" ++ renderTracks items), st2, reqs2)

/-- The parameter object of getRecommendations, at the type its TS
signature declares (all fields optional, defaults applied inside). -/
structure RecArgs where
  seed_tracks : Option (List String) := none
  seed_artists : Option (List String) := none
  seed_genres : Option (List String) := none
  limit : Option ℚ := none
  target_energy : Option ℚ := none
  target_danceability : Option ℚ := none
  target_tempo : Option ℚ := none
deriving Repr

/-- The seed summary text prefixed to a recommendations result. -/
def seedInfo (seedTracks seedArtists seedGenres : List String) : String :=
  (if seedTracks.length > 0 then
    "Track Seeds: " ++ String.intercalate ", " seedTracks ++ "\n" else "") ++
  (if seedArtists.length > 0 then
    "Artist Seeds: " ++ String.intercalate ", " seedArtists ++ "\n" else "") ++
  (if seedGenres.length > 0 then
    "Genre Seeds: " ++ String.intercalate ", " seedGenres ++ "\n" else "")

/-- Embedding of getRecommendations (src/spotify-api.ts lines 111-202).
Both seed-count checks run before the credential fetch, so a validation
failure performs no network call at all. -/
def getRecommendations (p : RecArgs) (env : Env) (st : CredState) :
    Except String String × CredState × List Request :=
  let seedTracks := p.seed_tracks.getD []
  let seedArtists := p.seed_artists.getD []
  let seedGenres := p.seed_genres.getD []
  let limit := p.limit.getD 20
  if seedTracks.length + seedArtists.length + seedGenres.length = 0 then
    (.error "At least one seed track, artist, or genre is required", st, [])
  else if seedTracks.length + seedArtists.length + seedGenres.length > 5 then
    (.error "You can only use a total of 5 seeds (tracks, artists, and genres combined)",
     st, [])
  else
    match getAccessToken env st with
    | (.error m, st2, reqs) => (.error m, st2, reqs)
    | (.ok _tok, st2, reqs) =>
      let reqs2 := reqs ++ [.recommendations seedTracks seedArtists seedGenres (min limit 100)]
      if !env.recsResp.ok then
        (.error (apiErrMsg env.recsResp), st2, reqs2)
      else
        match env.recsTracks with
        | none => (.ok "No recommendations found with your criteria.", st2, reqs2)
        | some [] => (.ok "No recommendations found with your criteria.", st2, reqs2)
        | some items =>
            (.ok ("Recommendations based on:\n" ++
                  seedInfo seedTracks seedArtists seedGenres ++ "\n\n" ++
                  renderTracks items), st2, reqs2)

/-- Embedding of createPlaylist (src/spotify-api.ts lines 204-245): GET
the current-user id, then POST the new playlist. -/
def createPlaylist (name description : String) (isPublic : Bool)
    (env : Env) (st : CredState) :
    Except String String × CredState × List Request :=
  match getAccessToken env st with
  | (.error m, st2, reqs) => (.error m, st2, reqs)
  | (.ok _tok, st2, reqs) =>
    let reqs2 := reqs ++ [.me]
    if !env.meResp.ok then
      (.error (apiErrMsg env.meResp), st2, reqs2)
    else
      let reqs3 := reqs2 ++ [.createPlaylist name description isPublic]
      if !env.createResp.ok then
        (.error (apiErrMsg env.createResp), st2, reqs3)
      else
        (.ok ("Successfully created playlist \"" ++ name ++ "\"!\n  Playlist ID: " ++
              env.createdId ++ "\n  Playlist URL: " ++ env.createdUrl ++
              "\n  Now you can add tracks to this playlist using the spotify_add_tracks_to_playlist tool."),
         st2, reqs3)

/-- Embedding of addTracksToPlaylist (src/spotify-api.ts lines 247-277). -/
def addTracksToPlaylist (playlistId : String) (trackUris : List String)
    (position : Option ℚ) (env : Env) (st : CredState) :
    Except String String × CredState × List Request :=
  match getAccessToken env st with
  | (.error m, st2, reqs) => (.error m, st2, reqs)
  | (.ok _tok, st2, reqs) =>
    let reqs2 := reqs ++ [.addTracks playlistId trackUris position]
    if !env.addResp.ok then
      (.error (apiErrMsg env.addResp), st2, reqs2)
    else
      (.ok ("Successfully added " ++ toString trackUris.length ++
            " track(s) to the playlist!\n  Snapshot ID: " ++ env.snapshotId),
       st2, reqs2)

/-- Rendering of one entry of the user-playlists listing. -/
def playlistLine (index : Nat) (p : PlaylistInfo) : String :=
  toString (index + 1) ++ ". \"" ++ p.name ++ "\"" ++
    "\n   Description: " ++ (if p.description = "" then "No description" else p.description) ++
    "\n   Tracks: " ++ toString p.tracksTotal ++
    "\n   Public: " ++ (if p.isPublic then "Yes" else "No") ++
    "\n   Playlist ID: " ++ p.id ++
    "\n   URL: " ++ p.url ++ "\n  "

/-- Embedding of getUserPlaylists (src/spotify-api.ts lines 279-313). -/
def getUserPlaylists (limit offset : ℚ) (env : Env) (st : CredState) :
    Except String String × CredState × List Request :=
  match getAccessToken env st with
  | (.error m, st2, reqs) => (.error m, st2, reqs)
  | (.ok _tok, st2, reqs) =>
    let reqs2 := reqs ++ [.userPlaylists (min limit 50) offset]
    if !env.playlistsResp.ok then
      (.error (apiErrMsg env.playlistsResp), st2, reqs2)
    else
      match env.playlistsItems with
      | none => (.ok "You don't have any playlists yet.", st2, reqs2)
      | some [] => (.ok "You don't have any playlists yet.", st2, reqs2)
      | some items =>
          (.ok ("Found " ++ toString items.length ++ " playlists (showing " ++
                toString (offset + 1) ++ "-" ++ toString (offset + items.length) ++
                " of " ++ toString env.playlistsTotal ++ "):\n\n" ++
                String.intercalate "\n\n" (items.mapIdx playlistLine)),
           st2, reqs2)

/-- Rendering of one entry of a playlist-tracks page; the displayed index
is index + offset + 1 in the source. -/
def playlistTrackLine (offset : ℚ) (index : Nat) (it : PlaylistItem) : String :=
  toString ((index : ℚ) + offset + 1) ++ ". \"" ++ it.track.name ++ "\" by " ++
    String.intercalate ", " it.track.artists ++
    "\n   Album: " ++ it.track.album ++
    "\n   Duration: " ++ formatDuration it.track.duration_ms ++
    "\n   Added at: " ++ it.addedAtDisplay ++
    "\n   Spotify URI: " ++ it.track.uri ++
    "\n   Track ID: " ++ it.track.id ++ "\n  "

/-- Embedding of getPlaylistTracks (src/spotify-api.ts lines 315-364): GET
the playlist metadata, then GET one page of its tracks.  The header totals
come from the metadata response (its total field) while X and Y come from
offset and the page length. -/
def getPlaylistTracks (playlistId : String) (limit offset : ℚ)
    (env : Env) (st : CredState) :
    Except String String × CredState × List Request :=
  match getAccessToken env st with
  | (.error m, st2, reqs) => (.error m, st2, reqs)
  | (.ok _tok, st2, reqs) =>
    let reqs2 := reqs ++ [.playlistMeta playlistId]
    if !env.plMetaResp.ok then
      (.error (apiErrMsg env.plMetaResp), st2, reqs2)
    else
      let reqs3 := reqs2 ++ [.playlistTracks playlistId (min limit 100) offset]
      if !env.plTracksResp.ok then
        (.error (apiErrMsg env.plTracksResp), st2, reqs3)
      else
        match env.plItems with
        | none => (.ok ("Playlist \"" ++ env.plName ++ "\" is empty."), st2, reqs3)
        | some [] => (.ok ("Playlist \"" ++ env.plName ++ "\" is empty."), st2, reqs3)
        | some items =>
            (.ok ("Tracks in \"" ++ env.plName ++ "\" (showing " ++
                  toString (offset + 1) ++ "-" ++ toString (offset + items.length) ++
                  " of " ++ toString env.plTotal ++ "):\n\n" ++
                  String.intercalate "\n\n" (items.mapIdx (playlistTrackLine offset))),
             st2, reqs3)

/-- A JSON-ish value of a tool-call argument field. -/
inductive JVal where
  | str (s : String)
  | num (q : ℚ)
  | boolean (b : Bool)
  | arr (elems : List JVal)
  | null
deriving Repr

/-- The argument object of a tool call: the fields the gateway and the
type guards read, each present or absent.  The isPublic field models the
JSON key named public. -/
structure Args where
  query : Option JVal := none
  limit : Option JVal := none
  offset : Option JVal := none
  seed_tracks : Option JVal := none
  seed_artists : Option JVal := none
  seed_genres : Option JVal := none
  target_energy : Option JVal := none
  target_danceability : Option JVal := none
  target_tempo : Option JVal := none
  name : Option JVal := none
  description : Option JVal := none
  isPublic : Option JVal := none
  playlist_id : Option JVal := none
  track_uris : Option JVal := none
  position : Option JVal := none
deriving Repr

/-- Numeric field read with a destructuring default: the default applies
when the field is absent.  A present non-numeric value would flow through
JS coercion (yielding NaN downstream); that is outside the numeric domain
modelled here and is read as 0. -/
def jNum (d : ℚ) : Option JVal → ℚ
  | some (.num q) => q
  | some _ => 0
  | none => d

/-- Optional numeric field (no default: absent stays absent). -/
def jNumOpt : Option JVal → Option ℚ
  | some (.num q) => some q
  | _ => none

/-- String field; the guards ensure the field is a string before it is
read, so the fallback is never reached on guarded paths. -/
def jStr (d : String) : Option JVal → String
  | some (.str s) => s
  | some _ => ""
  | none => d

/-- Boolean field with a destructuring default. -/
def jBool (d : Bool) : Option JVal → Bool
  | some (.boolean b) => b
  | some _ => false
  | none => d

def jValToStr : JVal → String
  | .str s => s
  | _ => ""

/-- String-array field; the guards ensure Array.isArray before it is read. -/
def jStrList : Option JVal → List String
  | some (.arr l) => l.map jValToStr
  | _ => []

/-- String-array field kept optional, for the seed parameters whose
absence triggers the destructuring default inside getRecommendations.
Present non-array values are outside the declared parameter type of the
TS signature and are read as absent. -/
def jStrListOpt : Option JVal → Option (List String)
  | some (.arr l) => some (l.map jValToStr)
  | _ => none

/-- Type guard isSearchTracksArgs (src/tools.ts lines 190-197). -/
def isSearchTracksArgs (a : Args) : Bool :=
  match a.query with
  | some (.str _) => true
  | _ => false

/-- Type guard isGetRecommendationsArgs (src/tools.ts lines 199-218):
at least one seed field present as an array. -/
def isGetRecommendationsArgs (a : Args) : Bool :=
  (match a.seed_tracks with | some (.arr _) => true | _ => false) ||
  (match a.seed_artists with | some (.arr _) => true | _ => false) ||
  (match a.seed_genres with | some (.arr _) => true | _ => false)

/-- Type guard isCreatePlaylistArgs (src/tools.ts lines 220-227). -/
def isCreatePlaylistArgs (a : Args) : Bool :=
  match a.name with
  | some (.str _) => true
  | _ => false

/-- Type guard isAddTracksToPlaylistArgs (src/tools.ts lines 229-238). -/
def isAddTracksToPlaylistArgs (a : Args) : Bool :=
  (match a.playlist_id with | some (.str _) => true | _ => false) &&
  (match a.track_uris with | some (.arr _) => true | _ => false)

/-- Type guard isGetUserPlaylistsArgs (src/tools.ts lines 240-245): any
non-null object passes. -/
def isGetUserPlaylistsArgs (_a : Args) : Bool := true

/-- Type guard isGetPlaylistTracksArgs (src/tools.ts lines 247-254). -/
def isGetPlaylistTracksArgs (a : Args) : Bool :=
  match a.playlist_id with
  | some (.str _) => true
  | _ => false

/-- Conversion of the raw argument object to the getRecommendations
parameter object (the gateway passes the object through unchanged). -/
def toRecArgs (a : Args) : RecArgs :=
  { seed_tracks := jStrListOpt a.seed_tracks,
    seed_artists := jStrListOpt a.seed_artists,
    seed_genres := jStrListOpt a.seed_genres,
    limit := jNumOpt a.limit,
    target_energy := jNumOpt a.target_energy,
    target_danceability := jNumOpt a.target_danceability,
    target_tempo := jNumOpt a.target_tempo }

/-- One content block of a call-tool response envelope. -/
structure ContentBlock where
  type : String
  text : String
deriving Repr, DecidableEq

/-- The uniform response envelope of the dispatch gateway. -/
structure CallToolResult where
  content : List ContentBlock
  isError : Bool
deriving Repr, DecidableEq

/-- The success-wrapping each dispatched case performs on the text its
operation returned (the JS object literal repeated in every case). -/
def wrapOp (r : Except String String × CredState × List Request) :
    Except String CallToolResult × CredState × List Request :=
  match r with
  | (.ok t, st, reqs) => (.ok ⟨[⟨"text", t⟩], false⟩, st, reqs)
  | (.error m, st, reqs) => (.error m, st, reqs)

/-- The body of the try block of the CallToolRequestSchema handler (the
server entry file, lines 91-176): the missing-arguments check, then the
switch over the tool name with each per-case type guard, operation call
and success wrapping, with the default branch returning the unknown-tool
envelope.  An Except.error value is a raised JS error reaching the catch
clause. -/
def dispatchBody (name : String) (args : Option Args) (env : Env) (st : CredState) :
    Except String CallToolResult × CredState × List Request :=
  match args with
  | none => (.error "No arguments provided", st, [])
  | some a =>
    match name with
    | "spotify_search_tracks" =>
      if !isSearchTracksArgs a then
        (.error "Invalid arguments for spotify_search_tracks", st, [])
      else
        wrapOp (searchTracks (jStr "" a.query) (jNum 10 a.limit) env st)
    | "spotify_get_recommendations" =>
      if !isGetRecommendationsArgs a then
        (.error "Invalid arguments for spotify_get_recommendations", st, [])
      else
        wrapOp (getRecommendations (toRecArgs a) env st)
    | "spotify_create_playlist" =>
      if !isCreatePlaylistArgs a then
        (.error "Invalid arguments for spotify_create_playlist", st, [])
      else
        wrapOp (createPlaylist (jStr "" a.name) (jStr "" a.description)
          (jBool false a.isPublic) env st)
    | "spotify_add_tracks_to_playlist" =>
      if !isAddTracksToPlaylistArgs a then
        (.error "Invalid arguments for spotify_add_tracks_to_playlist", st, [])
      else
        wrapOp (addTracksToPlaylist (jStr "" a.playlist_id) (jStrList a.track_uris)
          (jNumOpt a.position) env st)
    | "spotify_get_user_playlists" =>
      if !isGetUserPlaylistsArgs a then
        (.error "Invalid arguments for spotify_get_user_playlists", st, [])
      else
        wrapOp (getUserPlaylists (jNum 20 a.limit) (jNum 0 a.offset) env st)
    | "spotify_get_playlist_tracks" =>
      if !isGetPlaylistTracksArgs a then
        (.error "Invalid arguments for spotify_get_playlist_tracks", st, [])
      else
        wrapOp (getPlaylistTracks (jStr "" a.playlist_id) (jNum 50 a.limit)
          (jNum 0 a.offset) env st)
    | _ => (.ok ⟨[⟨"text", "Unknown tool: " ++ name⟩], true⟩, st, [])

/-- The full CallToolRequestSchema handler: the try body plus the catch
clause that converts any raised error into an isError envelope whose text
is the Error: prefix followed by the message of the error.  The handler
itself is total: it always returns an envelope. -/
def handleCallTool (name : String) (args : Option Args) (env : Env) (st : CredState) :
    CallToolResult × CredState × List Request :=
  match dispatchBody name args env st with
  | (.ok r, st2, reqs) => (r, st2, reqs)
  | (.error m, st2, reqs) => (⟨[⟨"text", "Error: " ++ m⟩], true⟩, st2, reqs)

/-- The operation a tool name routes to when its type guard accepts the
arguments: none for an unknown name or a rejected guard.  This is an
observation of the switch of the handler, used to state what a successful
dispatch wraps. -/
def routedOp (name : String) (a : Args) (env : Env) (st : CredState) :
    Option (Except String String × CredState × List Request) :=
  match name with
  | "spotify_search_tracks" =>
    if isSearchTracksArgs a then
      some (searchTracks (jStr "" a.query) (jNum 10 a.limit) env st)
    else none
  | "spotify_get_recommendations" =>
    if isGetRecommendationsArgs a then
      some (getRecommendations (toRecArgs a) env st)
    else none
  | "spotify_create_playlist" =>
    if isCreatePlaylistArgs a then
      some (createPlaylist (jStr "" a.name) (jStr "" a.description)
        (jBool false a.isPublic) env st)
    else none
  | "spotify_add_tracks_to_playlist" =>
    if isAddTracksToPlaylistArgs a then
      some (addTracksToPlaylist (jStr "" a.playlist_id) (jStrList a.track_uris)
        (jNumOpt a.position) env st)
    else none
  | "spotify_get_user_playlists" =>
    if isGetUserPlaylistsArgs a then
      some (getUserPlaylists (jNum 20 a.limit) (jNum 0 a.offset) env st)
    else none
  | "spotify_get_playlist_tracks" =>
    if isGetPlaylistTracksArgs a then
      some (getPlaylistTracks (jStr "" a.playlist_id) (jNum 50 a.limit)
        (jNum 0 a.offset) env st)
    else none
  | _ => none

/-- The six registered tool names (src/tools.ts). -/
def registeredToolNames : List String :=
  ["spotify_search_tracks", "spotify_get_recommendations", "spotify_create_playlist",
   "spotify_add_tracks_to_playlist", "spotify_get_user_playlists",
   "spotify_get_playlist_tracks"]

/-- Substring test on character lists, used to state that an error message
carries a status code or body. -/
def hasSub (p : List Char) : List Char → Bool
  | [] => p.isEmpty
  | c :: t => p.isPrefixOf (c :: t) || hasSub p t

/-- Substring test on strings. -/
def strContains (s pat : String) : Bool :=
  hasSub pat.data s.data

-- Concrete oracle environments and states used by witnesses and
-- counterexamples.

/-- A 200 response with an uninteresting body. -/
def okResp : FetchResponse := ⟨200, "OK", "ok"⟩

/-- A 401 response. -/
def resp401 : FetchResponse := ⟨401, "Unauthorized", "bad token"⟩

/-- A baseline environment: every endpoint answers 200 with small fixed
payloads, the clock reads 50. -/
def env0 : Env :=
  { now := 50,
    tokenResp := okResp,
    tokenPayload := some ("fresh", 3600),
    tokenParseErr := "Unexpected end of JSON input",
    searchResp := okResp,
    searchItems := some [],
    recsResp := okResp,
    recsTracks := some [],
    meResp := okResp,
    meId := "user1",
    createResp := okResp,
    createdId := "pl1",
    createdUrl := "https://open.spotify.com/playlist/pl1",
    addResp := okResp,
    snapshotId := "snap1",
    playlistsResp := okResp,
    playlistsItems := some [],
    playlistsTotal := 0,
    plMetaResp := okResp,
    plName := "MyList",
    plTotal := 30,
    plTracksResp := okResp,
    plItems := some [] }

/-- A state holding a cached token valid at env0.now = 50. -/
def st0 : CredState := ⟨"cached", 100⟩

/-- A state holding a cached token already expired at clock 100. -/
def stOld : CredState := ⟨"old", 50⟩

/-- Environment where the clock reads 100, renewal succeeds, and the
search endpoint answers 401. -/
def envA : Env :=
  { env0 with now := 100, searchResp := resp401 }

/-- Environment where the clock reads 100 and the token endpoint answers
200 with a malformed body. -/
def envB : Env :=
  { env0 with now := 100, tokenResp := ⟨200, "OK", "not json"⟩, tokenPayload := none }

/-- A two-item playlist page used by the pagination witness. -/
def sampleTrack : Track :=
  ⟨"Song A", ["Artist A"], "Album A", 125000, "spotify:track:a", "a", 50⟩

def env8 : Env :=
  { env0 with
    plItems := some [⟨sampleTrack, "1/1/2024, 1:00:00 PM"⟩,
                     ⟨sampleTrack, "1/2/2024, 1:00:00 PM"⟩] }

/-- Environment whose search endpoint answers 401 while the clock still
reads 50 (a cached token valid at 50 stays valid). -/
def envC : Env :=
  { env0 with searchResp := resp401 }

/-- A recommendations parameter object carrying exactly five seeds
(three tracks plus two artists). -/
def p5 : RecArgs :=
  { seed_tracks := some ["t1", "t2", "t3"], seed_artists := some ["a1", "a2"] }

/-! Helper lemmas shared by several claim theorems. -/

theorem getAccessToken_hit (env : Env) (st : CredState)
    (h1 : st.accessToken ≠ "") (h2 : env.now < st.tokenExpiryTime) :
    getAccessToken env st = (.ok st.accessToken, st, []) := by
  unfold getAccessToken
  rw [if_pos ⟨h1, h2⟩]

theorem getAccessToken_renewFail (env : Env) (st : CredState)
    (hm : ¬(st.accessToken ≠ "" ∧ env.now < st.tokenExpiryTime))
    (hok : env.tokenResp.ok = false) :
    getAccessToken env st = (.error (tokenErrMsg env.tokenResp), st, [.token]) := by
  unfold getAccessToken
  rw [if_neg hm, if_pos (by rw [hok]; rfl)]

theorem getAccessToken_renewParse (env : Env) (st : CredState)
    (hm : ¬(st.accessToken ≠ "" ∧ env.now < st.tokenExpiryTime))
    (hok : env.tokenResp.ok = true) (hp : env.tokenPayload = none) :
    getAccessToken env st = (.error env.tokenParseErr, st, [.token]) := by
  unfold getAccessToken
  rw [if_neg hm, if_neg (by rw [hok]; simp), hp]

theorem getAccessToken_renewOk (env : Env) (st : CredState) (tok : String) (expiresIn : ℚ)
    (hm : ¬(st.accessToken ≠ "" ∧ env.now < st.tokenExpiryTime))
    (hok : env.tokenResp.ok = true) (hp : env.tokenPayload = some (tok, expiresIn)) :
    getAccessToken env st =
      (.ok tok,
       { accessToken := tok,
         tokenExpiryTime := env.now + expiresIn * 1000 * (9 / 10 : ℚ) },
       [.token]) := by
  unfold getAccessToken
  rw [if_neg hm, if_neg (by rw [hok]; simp), hp]

theorem intToString_natCast (n : ℕ) : toString ((n : ℤ)) = toString n := rfl

theorem floor_eq_natFloor (q : ℚ) (hq : 0 ≤ q) : ⌊q⌋ = (⌊q⌋₊ : ℤ) := by
  rw [← Int.floor_toNat, Int.toNat_of_nonneg (Int.floor_nonneg.2 hq)]

theorem formatDuration_eq_spec (ms : ℚ) (h : 0 ≤ ms) :
    formatDuration ms = formatDurationSpec ms := by
  have h1000 : (0 : ℚ) ≤ ms / 1000 := by positivity
  have hfl : (0 : ℤ) ≤ ⌊ms / 1000⌋ := Int.floor_nonneg.2 h1000
  have e1 : ⌊ms / 1000⌋ = (⌊ms / 1000⌋₊ : ℤ) := floor_eq_natFloor _ h1000
  have key : ⌊ms / 1000 / 60⌋₊ = ⌊ms / 1000⌋₊ / 60 := by
    rw [show ((60 : ℚ)) = ((60 : ℕ) : ℚ) by norm_num, Nat.floor_div_nat]
  have emin : ⌊((⌊ms / 1000⌋ : ℤ) : ℚ) / 60⌋ = ((⌊ms / 1000⌋₊ / 60 : ℕ) : ℤ) := by
    rw [e1]
    push_cast
    rw [floor_eq_natFloor _ (by positivity)]
    norm_cast
  have esec : Int.tmod ⌊ms / 1000⌋ 60 = ((⌊ms / 1000⌋₊ % 60 : ℕ) : ℤ) := by
    rw [Int.tmod_eq_emod hfl (by norm_num), e1, Int.natCast_mod]
    norm_num
  simp only [formatDuration, formatDurationSpec]
  rw [emin, esec, intToString_natCast, intToString_natCast, key]

theorem formatDuration_ex1 : formatDuration 125000 = "2:05" := by
  rw [formatDuration_eq_spec _ (by norm_num)]
  unfold formatDurationSpec
  rw [show ⌊(125000 : ℚ) / 1000 / 60⌋₊ = 2 by
        rw [show (125000 : ℚ) = ((125000 : ℕ) : ℚ) by norm_num,
            show (1000 : ℚ) = ((1000 : ℕ) : ℚ) by norm_num,
            show (60 : ℚ) = ((60 : ℕ) : ℚ) by norm_num,
            Nat.floor_div_nat, Nat.floor_div_eq_div],
      show ⌊(125000 : ℚ) / 1000⌋₊ = 125 by
        rw [show (125000 : ℚ) = ((125000 : ℕ) : ℚ) by norm_num,
            show (1000 : ℚ) = ((1000 : ℕ) : ℚ) by norm_num,
            Nat.floor_div_eq_div]]
  decide

theorem formatDuration_ex2 : formatDuration 59999 = "0:59" := by
  rw [formatDuration_eq_spec _ (by norm_num)]
  unfold formatDurationSpec
  rw [show ⌊(59999 : ℚ) / 1000 / 60⌋₊ = 0 by
        rw [show (59999 : ℚ) = ((59999 : ℕ) : ℚ) by norm_num,
            show (1000 : ℚ) = ((1000 : ℕ) : ℚ) by norm_num,
            show (60 : ℚ) = ((60 : ℕ) : ℚ) by norm_num,
            Nat.floor_div_nat, Nat.floor_div_eq_div],
      show ⌊(59999 : ℚ) / 1000⌋₊ = 59 by
        rw [show (59999 : ℚ) = ((59999 : ℕ) : ℚ) by norm_num,
            show (1000 : ℚ) = ((1000 : ℕ) : ℚ) by norm_num,
            Nat.floor_div_eq_div]]
  decide

theorem formatDuration_ex3 : formatDuration 600000 = "10:00" := by
  rw [formatDuration_eq_spec _ (by norm_num)]
  unfold formatDurationSpec
  rw [show ⌊(600000 : ℚ) / 1000 / 60⌋₊ = 10 by
        rw [show (600000 : ℚ) = ((600000 : ℕ) : ℚ) by norm_num,
            show (1000 : ℚ) = ((1000 : ℕ) : ℚ) by norm_num,
            show (60 : ℚ) = ((60 : ℕ) : ℚ) by norm_num,
            Nat.floor_div_nat, Nat.floor_div_eq_div],
      show ⌊(600000 : ℚ) / 1000⌋₊ = 600 by
        rw [show (600000 : ℚ) = ((600000 : ℕ) : ℚ) by norm_num,
            show (1000 : ℚ) = ((1000 : ℕ) : ℚ) by norm_num,
            Nat.floor_div_eq_div]]
  decide

/-- Claim C9: for every nonnegative millisecond count ms, formatDuration ms
equals floor(ms/1000/60), a colon, then floor(ms/1000) mod 60 zero-padded
to two digits (floor truncation, no rounding); in particular
125000 gives 2:05, 59999 gives 0:59 and 600000 gives 10:00. -/
theorem claim9_formatDuration :
    (∀ ms : ℚ, 0 ≤ ms → formatDuration ms = formatDurationSpec ms) ∧
    formatDuration 125000 = "2:05" ∧
    formatDuration 59999 = "0:59" ∧
    formatDuration 600000 = "10:00" :=
  ⟨formatDuration_eq_spec, formatDuration_ex1, formatDuration_ex2, formatDuration_ex3⟩

theorem claim9_formatDuration_witness :
    (0 : ℚ) ≤ 125000 ∧ formatDuration 125000 = formatDurationSpec 125000 :=
  ⟨by norm_num, claim9_formatDuration.1 125000 (by norm_num)⟩

/-- Claim C2: whenever the cached access token is non-empty and the stored
expiry instant is strictly in the future, getAccessToken returns the
cached token unchanged, performs no renewal network call, and leaves the
credential state untouched. -/
theorem claim2_cache_hit (env : Env) (st : CredState)
    (h1 : st.accessToken ≠ "") (h2 : env.now < st.tokenExpiryTime) :
    getAccessToken env st = (.ok st.accessToken, st, []) :=
  getAccessToken_hit env st h1 h2

theorem claim2_cache_hit_witness :
    st0.accessToken ≠ "" ∧ env0.now < st0.tokenExpiryTime ∧
    getAccessToken env0 st0 = (.ok st0.accessToken, st0, []) :=
  ⟨by decide, by norm_num [env0, st0],
   claim2_cache_hit env0 st0 (by decide) (by norm_num [env0, st0])⟩

/-- Claim C3: every successful renewal exchange returning a lifetime of
expiresIn seconds at time now sets the stored expiry to exactly
now + 0.9 * expiresIn * 1000 milliseconds; for expiresIn = 3600 the new
expiry is now + 3240000. -/
theorem claim3_renewal_expiry (env : Env) (st : CredState) (tok : String) (expiresIn : ℚ)
    (hm : ¬(st.accessToken ≠ "" ∧ env.now < st.tokenExpiryTime))
    (hok : env.tokenResp.ok = true) (hp : env.tokenPayload = some (tok, expiresIn)) :
    (getAccessToken env st).2.1.tokenExpiryTime = env.now + (9 / 10 : ℚ) * expiresIn * 1000 ∧
    (expiresIn = 3600 → (getAccessToken env st).2.1.tokenExpiryTime = env.now + 3240000) := by
  rw [getAccessToken_renewOk env st tok expiresIn hm hok hp]
  constructor
  · show env.now + expiresIn * 1000 * (9 / 10 : ℚ) = _
    ring
  · rintro rfl
    show env.now + (3600 : ℚ) * 1000 * (9 / 10 : ℚ) = _
    norm_num

theorem claim3_renewal_expiry_witness :
    (getAccessToken envA stOld).2.1.tokenExpiryTime = envA.now + 3240000 :=
  (claim3_renewal_expiry envA stOld "fresh" 3600
    (by rintro ⟨-, hlt⟩; simp only [envA, env0, stOld] at hlt; norm_num at hlt)
    (by decide) rfl).2 rfl

theorem errMsg_ne_unknown (nm : String) :
    ("Error: No arguments provided" : String) ≠ "Unknown tool: " ++ nm := by
  intro h
  have h3 := congrArg (fun s => s.data.head?) h
  simp only [String.data_append] at h3
  rw [List.head?_append] at h3
  simp at h3

/-- Claim C10: a dispatch whose arguments field is absent yields the
isError envelope with text Error: No arguments provided, whatever the tool
name is; in particular the text is never the unknown-tool message, because
the arguments-presence check precedes tool-name routing. -/
theorem claim10_no_arguments (name : String) (env : Env) (st : CredState) :
    handleCallTool name none env st =
      (⟨[⟨"text", "Error: No arguments provided"⟩], true⟩, st, []) ∧
    (handleCallTool name none env st).1 ≠ ⟨[⟨"text", "Unknown tool: " ++ name⟩], true⟩ := by
  refine ⟨rfl, fun h => errMsg_ne_unknown name ?_⟩
  have h2 : (⟨[⟨"text", "Error: No arguments provided"⟩], true⟩ : CallToolResult) =
      ⟨[⟨"text", "Unknown tool: " ++ name⟩], true⟩ := h
  simpa using h2

theorem claim10_no_arguments_witness :
    handleCallTool "foo" none env0 st0 =
      (⟨[⟨"text", "Error: No arguments provided"⟩], true⟩, st0, []) :=
  (claim10_no_arguments "foo" env0 st0).1

theorem wrapOp_ok_shape (x : Except String String × CredState × List Request)
    (r : CallToolResult) (st2 : CredState) (reqs : List Request)
    (h : wrapOp x = (.ok r, st2, reqs)) : ∃ s, r = ⟨[⟨"text", s⟩], false⟩ := by
  obtain ⟨res, stx, reqsx⟩ := x
  cases res with
  | ok t =>
    refine ⟨t, ?_⟩
    simp only [wrapOp, Prod.mk.injEq, Except.ok.injEq] at h
    exact h.1.symm
  | error m => simp [wrapOp] at h

theorem dispatchBody_ok_shape (name : String) (args : Option Args) (env : Env)
    (st : CredState) (r : CallToolResult) (st2 : CredState) (reqs : List Request)
    (h : dispatchBody name args env st = (.ok r, st2, reqs)) :
    ∃ s b, r = ⟨[⟨"text", s⟩], b⟩ := by
  unfold dispatchBody at h
  split at h
  · simp at h
  · split at h <;>
      first
        | (split at h <;>
            first
              | simp at h
              | (obtain ⟨s, hs⟩ := wrapOp_ok_shape _ _ _ _ h
                 exact ⟨s, false, hs⟩))
        | (simp only [Prod.mk.injEq, Except.ok.injEq] at h
           obtain ⟨h1, -, -⟩ := h
           exact ⟨_, _, h1.symm⟩)

/-- Claim C1: every call-tool dispatch returns a well-formed envelope and
never raises (handleCallTool is a total function): the envelope always
holds exactly one text content block; any error raised inside the try body
is converted into isError=true with text Error: followed by the message of
the error; and an operation that the switch dispatched and that succeeded
with text t is wrapped as isError=false with single text block t. -/
theorem claim1_gateway_envelope (name : String) (args : Option Args) (env : Env)
    (st : CredState) :
    (∃ s b, (handleCallTool name args env st).1 = ⟨[⟨"text", s⟩], b⟩) ∧
    (∀ m st2 reqs, dispatchBody name args env st = (.error m, st2, reqs) →
      handleCallTool name args env st = (⟨[⟨"text", "Error: " ++ m⟩], true⟩, st2, reqs)) ∧
    (∀ r st2 reqs, dispatchBody name args env st = (.ok r, st2, reqs) →
      handleCallTool name args env st = (r, st2, reqs)) ∧
    (∀ a t st2 reqs, args = some a →
      routedOp name a env st = some (.ok t, st2, reqs) →
      handleCallTool name args env st = (⟨[⟨"text", t⟩], false⟩, st2, reqs)) := by
  refine ⟨?_, ?_, ?_, ?_⟩
  · rcases hd : dispatchBody name args env st with ⟨res, st2, reqs⟩
    cases res with
    | ok r =>
      obtain ⟨s, b, hs⟩ := dispatchBody_ok_shape name args env st r st2 reqs hd
      exact ⟨s, b, by simp [handleCallTool, hd, hs]⟩
    | error m =>
      exact ⟨"Error: " ++ m, true, by simp [handleCallTool, hd]⟩
  · intro m st2 reqs hd
    simp [handleCallTool, hd]
  · intro r st2 reqs hd
    simp [handleCallTool, hd]
  · intro a t st2 reqs ha hr
    subst ha
    have hd : dispatchBody name (some a) env st = (.ok ⟨[⟨"text", t⟩], false⟩, st2, reqs) := by
      unfold routedOp at hr
      unfold dispatchBody
      split at hr <;> simp at hr <;>
        (obtain ⟨hg, hop⟩ := hr
         simp [hg, hop, wrapOp])
    simp [handleCallTool, hd]

theorem claim1_gateway_envelope_witness :
    handleCallTool "spotify_search_tracks" none env0 st0 =
      (⟨[⟨"text", "Error: No arguments provided"⟩], true⟩, st0, []) :=
  (claim1_gateway_envelope "spotify_search_tracks" none env0 st0).2.1
    "No arguments provided" st0 [] rfl

/-- Claim C4, counterexample to the claim as stated: a dispatch whose tool
name foo is unknown but whose arguments field is absent is answered with
the missing-arguments error text, not the unknown-tool text. -/
theorem claim4_counterexample :
    (handleCallTool "foo" none env0 st0).1 =
      ⟨[⟨"text", "Error: No arguments provided"⟩], true⟩ ∧
    (handleCallTool "foo" none env0 st0).1 ≠ ⟨[⟨"text", "Unknown tool: foo"⟩], true⟩ :=
  ⟨rfl, by decide⟩

/-- Claim C4 (amended): for every dispatch call whose arguments field is
present and whose tool name is not one of the six registered operation
names, the response has isError=true, its text is exactly Unknown tool:
followed by the requested name, no error is raised to the caller, the
credential state is untouched and no network call occurs. -/
theorem claim4_unknown_tool (name : String) (a : Args) (env : Env) (st : CredState)
    (h : name ∉ registeredToolNames) :
    handleCallTool name (some a) env st =
      (⟨[⟨"text", "Unknown tool: " ++ name⟩], true⟩, st, []) := by
  have hd : dispatchBody name (some a) env st =
      (.ok ⟨[⟨"text", "Unknown tool: " ++ name⟩], true⟩, st, []) := by
    unfold dispatchBody
    dsimp only
    split <;> first | rfl | simp_all [registeredToolNames]
  simp [handleCallTool, hd]

theorem claim4_unknown_tool_witness :
    handleCallTool "foo" (some {}) env0 st0 =
      (⟨[⟨"text", "Unknown tool: foo"⟩], true⟩, st0, []) :=
  claim4_unknown_tool "foo" {} env0 st0 (by decide)

/-- Claim C5: a get-recommendations invocation whose combined seed count
is 0 or greater than 5 fails with the corresponding validation error
before any network call, credential renewal included (the trace is empty
and the state untouched); with exactly 5 combined seeds it proceeds and,
with a valid cached credential, issues exactly the remote recommendations
request. -/
theorem claim5_seed_validation (p : RecArgs) (env : Env) (st : CredState) :
    ((p.seed_tracks.getD []).length + (p.seed_artists.getD []).length +
        (p.seed_genres.getD []).length = 0 →
      getRecommendations p env st =
        (.error "At least one seed track, artist, or genre is required", st, [])) ∧
    ((p.seed_tracks.getD []).length + (p.seed_artists.getD []).length +
        (p.seed_genres.getD []).length > 5 →
      getRecommendations p env st =
        (.error "You can only use a total of 5 seeds (tracks, artists, and genres combined)",
         st, [])) ∧
    ((p.seed_tracks.getD []).length + (p.seed_artists.getD []).length +
        (p.seed_genres.getD []).length = 5 →
      st.accessToken ≠ "" → env.now < st.tokenExpiryTime →
      (getRecommendations p env st).2.2 =
        [.recommendations (p.seed_tracks.getD []) (p.seed_artists.getD [])
          (p.seed_genres.getD []) (min (p.limit.getD 20) 100)]) := by
  refine ⟨?_, ?_, ?_⟩
  · intro h0
    simp only [getRecommendations]
    rw [if_pos h0]
  · intro h5
    simp only [getRecommendations]
    rw [if_neg (by omega), if_pos h5]
  · intro h5 h1 h2
    simp only [getRecommendations, getAccessToken_hit env st h1 h2]
    rw [if_neg (by omega), if_neg (by omega)]
    split
    · simp
    · split <;> simp

theorem claim5_seed_validation_witness :
    (getRecommendations p5 env0 st0).2.2 =
      [.recommendations ["t1", "t2", "t3"] ["a1", "a2"] [] (min (20 : ℚ) 100)] :=
  (claim5_seed_validation p5 env0 st0).2.2 (by decide) (by decide)
    (by norm_num [env0, st0])

theorem searchTracks_trace (q : String) (l : ℚ) (env : Env) (st : CredState)
    (h1 : st.accessToken ≠ "") (h2 : env.now < st.tokenExpiryTime) :
    (searchTracks q l env st).2.2 = [.search q (min l 50)] := by
  simp only [searchTracks, getAccessToken_hit env st h1 h2]
  split
  · simp
  · split <;> simp

/-- Claim C6, counterexample to the claim as stated: with a valid cached
credential, a search-tracks call with limit 0 sends 0 upstream, not the
lower clamp 1 the claim asserts. -/
theorem claim6_counterexample :
    (searchTracks "x" 0 env0 st0).2.2 = [Request.search "x" 0] ∧
    Request.search "x" (0 : ℚ) ≠ Request.search "x" 1 := by
  constructor
  · have h := searchTracks_trace "x" 0 env0 st0 (by decide) (by norm_num [env0, st0])
    rw [show min (0 : ℚ) 50 = 0 from by norm_num] at h
    exact h
  · simp

/-- Claim C6 (amended): the limit a search-tracks call sends to the
upstream search endpoint is Math.min of the input and 50 (so 75 is sent as
50), the gateway substitutes the default 10 when the limit argument is
absent, and values below 1 are passed through unchanged (there is no lower
clamp in the source). -/
theorem claim6_search_limit (q : String) (l : ℚ) (env : Env) (st : CredState)
    (h1 : st.accessToken ≠ "") (h2 : env.now < st.tokenExpiryTime) :
    (searchTracks q l env st).2.2 = [.search q (min l 50)] ∧
    (∀ a : Args, a.query = some (.str q) → a.limit = none →
      (handleCallTool "spotify_search_tracks" (some a) env st).2.2 =
        (searchTracks q 10 env st).2.2) ∧
    (searchTracks q 10 env st).2.2 = [.search q 10] := by
  refine ⟨searchTracks_trace q l env st h1 h2, ?_, ?_⟩
  · intro a hq hl
    have hg : isSearchTracksArgs a = true := by unfold isSearchTracksArgs; rw [hq]
    have hq' : jStr "" a.query = q := by rw [hq]; rfl
    have hl' : jNum 10 a.limit = (10 : ℚ) := by rw [hl]; rfl
    simp only [handleCallTool, dispatchBody, hg, Bool.not_true, Bool.false_eq_true,
      if_false, hq', hl']
    rcases hres : searchTracks q 10 env st with ⟨res, stx, reqsx⟩
    cases res <;> simp [wrapOp, hres]
  · have h := searchTracks_trace q 10 env st h1 h2
    rw [show min (10 : ℚ) 50 = 10 from by norm_num] at h
    exact h

theorem claim6_search_limit_witness :
    (searchTracks "x" 75 env0 st0).2.2 = [Request.search "x" 50] := by
  have h := (claim6_search_limit "x" 75 env0 st0 (by decide) (by norm_num [env0, st0])).1
  rw [show min (75 : ℚ) 50 = 50 from by norm_num] at h
  exact h

/-- Claim C8: a list-playlist-tracks call whose page of items is non-empty
produces a result text beginning with the header Tracks in "name"
(showing X-Y of N) where X is offset+1, Y is offset plus the number of
items in the returned page, and N is the total reported by the
playlist-metadata response. -/
theorem claim8_header (pid : String) (l o : ℚ) (env : Env) (st : CredState)
    (h1 : st.accessToken ≠ "") (h2 : env.now < st.tokenExpiryTime)
    (hmeta : env.plMetaResp.ok = true) (htr : env.plTracksResp.ok = true)
    (x : PlaylistItem) (xs : List PlaylistItem) (hitems : env.plItems = some (x :: xs)) :
    ∃ rest, (getPlaylistTracks pid l o env st).1 =
      .ok ("Tracks in \"" ++ env.plName ++ "\" (showing " ++ toString (o + 1) ++ "-" ++
           toString (o + ((x :: xs).length : ℚ)) ++ " of " ++ toString env.plTotal ++
           ")" ++ rest) := by
  refine ⟨":\n\n" ++ String.intercalate "\n\n" ((x :: xs).mapIdx (playlistTrackLine o)), ?_⟩
  have hsplit : ∀ s : String, ("):\n\n" : String) ++ s = ")" ++ (":\n\n" ++ s) := by
    intro s
    rw [← String.append_assoc]
    congr 1
  simp only [getPlaylistTracks, getAccessToken_hit env st h1 h2]
  rw [if_neg (by rw [hmeta]; simp), if_neg (by rw [htr]; simp), hitems]
  simp [String.append_assoc]
  rw [hsplit]

theorem claim8_header_witness :
    ∃ rest, (getPlaylistTracks "p" 10 5 env8 st0).1 =
      .ok ("Tracks in \"" ++ env8.plName ++ "\" (showing " ++ toString ((5 : ℚ) + 1) ++
           "-" ++
           toString ((5 : ℚ) + (([⟨sampleTrack, "1/1/2024, 1:00:00 PM"⟩,
             ⟨sampleTrack, "1/2/2024, 1:00:00 PM"⟩] : List PlaylistItem).length : ℚ)) ++
           " of " ++ toString env8.plTotal ++ ")" ++ rest) :=
  claim8_header "p" 10 5 env8 st0 (by decide) (by norm_num [env8, env0, st0])
    (by decide) (by decide) ⟨sampleTrack, "1/1/2024, 1:00:00 PM"⟩
    [⟨sampleTrack, "1/2/2024, 1:00:00 PM"⟩] rfl

theorem isPrefixOf_self_append (p t : List Char) : p.isPrefixOf (p ++ t) = true := by
  induction p with
  | nil => simp [List.isPrefixOf]
  | cons c p ih => simp [List.isPrefixOf, ih]

theorem hasSub_append (p pre post : List Char) : hasSub p (pre ++ (p ++ post)) = true := by
  induction pre with
  | nil =>
    simp only [List.nil_append]
    cases hp : p ++ post with
    | nil =>
      have hpnil : p = [] := by
        cases p with
        | nil => rfl
        | cons c t => simp at hp
      subst hpnil
      rfl
    | cons c t =>
      show hasSub p (c :: t) = true
      simp only [hasSub, ← hp, isPrefixOf_self_append, Bool.true_or]
  | cons c pre ih =>
    simp [hasSub, List.append_eq, ih]

theorem strContains_append (a p b : String) : strContains (a ++ p ++ b) p = true := by
  unfold strContains
  rw [String.data_append, String.data_append, List.append_assoc]
  exact hasSub_append p.data a.data b.data

theorem strContains_append2 (a p : String) : strContains (a ++ p) p = true := by
  unfold strContains
  rw [String.data_append]
  have h := hasSub_append p.data a.data []
  rwa [List.append_nil] at h

theorem apiErrMsg_contains_status (r : FetchResponse) :
    strContains (apiErrMsg r) (toString r.status) = true := by
  have e : apiErrMsg r =
      "Spotify API error: " ++ toString r.status ++
        (" " ++ r.statusText ++ "\n" ++ r.body) := by
    unfold apiErrMsg
    simp [String.append_assoc]
  rw [e]
  exact strContains_append _ _ _

theorem tokenErrMsg_contains_status (r : FetchResponse) :
    strContains (tokenErrMsg r) (toString r.status) = true := by
  have e : tokenErrMsg r =
      "Failed to get access token: " ++ toString r.status ++
        (" " ++ r.statusText ++ "\n" ++ r.body) := by
    unfold tokenErrMsg
    simp [String.append_assoc]
  rw [e]
  exact strContains_append _ _ _

theorem tokenErrMsg_contains_body (r : FetchResponse) :
    strContains (tokenErrMsg r) r.body = true := by
  have e : tokenErrMsg r =
      ("Failed to get access token: " ++ toString r.status ++ " " ++ r.statusText ++ "\n") ++
        r.body := by
    unfold tokenErrMsg
    simp [String.append_assoc]
  rw [e]
  exact strContains_append2 _ _

/-- Claim C7, counterexample to the claim as stated: when the cached
credential was already expired, a remote operation receiving a 401 has
nevertheless changed the cached pair (the renewal on entry overwrote it),
so the pair is not exactly as before the call; and a renewal exchange
whose 2xx body is malformed raises the JSON parse error, which carries
neither the upstream status 200 nor the body. -/
theorem claim7_counterexample :
    (searchTracks "q" 10 envA stOld).1 = .error (apiErrMsg resp401) ∧
    (searchTracks "q" 10 envA stOld).2.1 ≠ stOld ∧
    getAccessToken envB stOld =
      (.error "Unexpected end of JSON input", stOld, [.token]) ∧
    strContains "Unexpected end of JSON input" (toString (200 : ℕ)) = false ∧
    strContains "Unexpected end of JSON input" "not json" = false := by
  have hmiss : ¬(stOld.accessToken ≠ "" ∧ envA.now < stOld.tokenExpiryTime) := by
    rintro ⟨-, hlt⟩
    simp only [envA, env0, stOld] at hlt
    norm_num at hlt
  have hga : getAccessToken envA stOld =
      (.ok "fresh", ⟨"fresh", envA.now + 3600 * 1000 * (9 / 10 : ℚ)⟩, [.token]) :=
    getAccessToken_renewOk envA stOld "fresh" 3600 hmiss (by decide) rfl
  have hs : searchTracks "q" 10 envA stOld =
      (.error (apiErrMsg envA.searchResp),
       ⟨"fresh", envA.now + 3600 * 1000 * (9 / 10 : ℚ)⟩,
       [.token, .search "q" (min 10 50)]) := by
    simp only [searchTracks, hga]
    rw [if_pos (by decide)]
    rfl
  refine ⟨by rw [hs]; rfl, ?_, ?_, by decide, by decide⟩
  · rw [hs]
    intro h
    have h2 := congrArg CredState.accessToken h
    simp [stOld] at h2
  · exact getAccessToken_renewParse envB stOld
      (by rintro ⟨-, hlt⟩; simp only [envB, env0, stOld] at hlt; norm_num at hlt)
      (by decide) rfl

/-- Claim C7 (amended): a remote operation that receives a non-2xx
upstream response while holding a valid cached credential raises an error
whose message contains the upstream status code and leaves the cached pair
exactly as it was; when the cache was invalid, the only credential
mutation of such a call is the renewal performed on entry (the non-2xx
handling itself never touches the pair).  A failed renewal exchange with a
non-2xx status raises an error carrying the upstream status and body and
leaves the cached pair unchanged; a renewal whose 2xx body is malformed
raises the JSON parse error (whose engine-defined message need not mention
the status) and likewise leaves the cached pair unchanged. -/
theorem claim7_remote_error_frame (env : Env) (st : CredState)
    (h1 : st.accessToken ≠ "") (h2 : env.now < st.tokenExpiryTime) :
    (∀ q l, env.searchResp.ok = false →
      searchTracks q l env st =
        (.error (apiErrMsg env.searchResp), st, [.search q (min l 50)]) ∧
      strContains (apiErrMsg env.searchResp) (toString env.searchResp.status) = true) ∧
    (∀ p : RecArgs,
      0 < (p.seed_tracks.getD []).length + (p.seed_artists.getD []).length +
          (p.seed_genres.getD []).length →
      (p.seed_tracks.getD []).length + (p.seed_artists.getD []).length +
          (p.seed_genres.getD []).length ≤ 5 →
      env.recsResp.ok = false →
      getRecommendations p env st =
        (.error (apiErrMsg env.recsResp), st,
         [.recommendations (p.seed_tracks.getD []) (p.seed_artists.getD [])
           (p.seed_genres.getD []) (min (p.limit.getD 20) 100)])) ∧
    (∀ n d pub, env.meResp.ok = false →
      createPlaylist n d pub env st = (.error (apiErrMsg env.meResp), st, [.me])) ∧
    (∀ n d pub, env.meResp.ok = true → env.createResp.ok = false →
      createPlaylist n d pub env st =
        (.error (apiErrMsg env.createResp), st, [.me, .createPlaylist n d pub])) ∧
    (∀ pid uris pos, env.addResp.ok = false →
      addTracksToPlaylist pid uris pos env st =
        (.error (apiErrMsg env.addResp), st, [.addTracks pid uris pos])) ∧
    (∀ l o, env.playlistsResp.ok = false →
      getUserPlaylists l o env st =
        (.error (apiErrMsg env.playlistsResp), st, [.userPlaylists (min l 50) o])) ∧
    (∀ pid l o, env.plMetaResp.ok = false →
      getPlaylistTracks pid l o env st =
        (.error (apiErrMsg env.plMetaResp), st, [.playlistMeta pid])) ∧
    (∀ pid l o, env.plMetaResp.ok = true → env.plTracksResp.ok = false →
      getPlaylistTracks pid l o env st =
        (.error (apiErrMsg env.plTracksResp), st,
         [.playlistMeta pid, .playlistTracks pid (min l 100) o])) ∧
    (∀ st2, ¬(st2.accessToken ≠ "" ∧ env.now < st2.tokenExpiryTime) →
      env.tokenResp.ok = false →
      getAccessToken env st2 = (.error (tokenErrMsg env.tokenResp), st2, [.token]) ∧
      strContains (tokenErrMsg env.tokenResp) (toString env.tokenResp.status) = true ∧
      strContains (tokenErrMsg env.tokenResp) env.tokenResp.body = true) ∧
    (∀ st2, ¬(st2.accessToken ≠ "" ∧ env.now < st2.tokenExpiryTime) →
      env.tokenResp.ok = true → env.tokenPayload = none →
      getAccessToken env st2 = (.error env.tokenParseErr, st2, [.token])) ∧
    (∀ q l st2, env.searchResp.ok = false →
      (searchTracks q l env st2).2.1 = (getAccessToken env st2).2.1) := by
  refine ⟨?_, ?_, ?_, ?_, ?_, ?_, ?_, ?_, ?_, ?_, ?_⟩
  · intro q l hfail
    refine ⟨?_, apiErrMsg_contains_status _⟩
    simp only [searchTracks, getAccessToken_hit env st h1 h2]
    rw [if_pos (by rw [hfail]; rfl)]
    simp
  · intro p hpos hle hfail
    simp only [getRecommendations, getAccessToken_hit env st h1 h2]
    rw [if_neg (by omega), if_neg (by omega), if_pos (by rw [hfail]; rfl)]
    simp
  · intro n d pub hfail
    simp only [createPlaylist, getAccessToken_hit env st h1 h2]
    rw [if_pos (by rw [hfail]; rfl)]
    simp
  · intro n d pub hok hfail
    simp only [createPlaylist, getAccessToken_hit env st h1 h2]
    rw [if_neg (by rw [hok]; simp), if_pos (by rw [hfail]; rfl)]
    simp
  · intro pid uris pos hfail
    simp only [addTracksToPlaylist, getAccessToken_hit env st h1 h2]
    rw [if_pos (by rw [hfail]; rfl)]
    simp
  · intro l o hfail
    simp only [getUserPlaylists, getAccessToken_hit env st h1 h2]
    rw [if_pos (by rw [hfail]; rfl)]
    simp
  · intro pid l o hfail
    simp only [getPlaylistTracks, getAccessToken_hit env st h1 h2]
    rw [if_pos (by rw [hfail]; rfl)]
    simp
  · intro pid l o hok hfail
    simp only [getPlaylistTracks, getAccessToken_hit env st h1 h2]
    rw [if_neg (by rw [hok]; simp), if_pos (by rw [hfail]; rfl)]
    simp
  · intro st2 hm hfail
    exact ⟨getAccessToken_renewFail env st2 hm hfail,
      tokenErrMsg_contains_status _, tokenErrMsg_contains_body _⟩
  · intro st2 hm hok hp
    exact getAccessToken_renewParse env st2 hm hok hp
  · intro q l st2 hfail
    rcases hga : getAccessToken env st2 with ⟨res, stx, reqsx⟩
    cases res <;> simp [searchTracks, hga, hfail]

theorem claim7_remote_error_frame_witness :
    searchTracks "q" 7 envC st0 =
      (.error (apiErrMsg envC.searchResp), st0, [.search "q" (min 7 50)]) ∧
    strContains (apiErrMsg envC.searchResp) (toString envC.searchResp.status) = true :=
  (claim7_remote_error_frame envC st0 (by decide)
    (by norm_num [envC, env0, st0])).1 "q" 7 (by decide)
